import Mathlib

/-!
Verification of the atoship Python SDK's request/retry/error-mapping pipeline
and validation layer, as a shallow embedding in Lean.

Python data reaching these functions is embedded as `PyVal` (None, bool, int,
float, str, list, dict, datetime).  Python floats are modelled as rationals:
every literal the SDK compares against (`0`) and all positivity checks are
exact, so no rounding behaviour is relevant to the properties proved here.
Functions that can raise a Python exception return `Except PyExc _`.
Character-class tests from the source's regular expressions are modelled
from Python's own semantics: `\s` (and `str.strip`) as Python's whitespace
set, `\d` as the Unicode decimal digits (category Nd, with the ranges of
the Unicode character database), and the case mappings as documented at
`pyUpper` and `pyLower`.
-/

/-- Embedded Python runtime values, as they occur in the SDK's payload
dictionaries and JSON bodies. -/
inductive PyVal where
  | none
  | bool (b : Bool)
  | int (n : Int)
  | float (q : Rat)
  | str (s : String)
  | list (elems : List PyVal)
  | dict (entries : List (String × PyVal))
  | datetime (year month day hour minute second : Nat)

/-- A Python dict with string keys, in insertion order. -/
abbrev PyDict := List (String × PyVal)

/-- Python exceptions that the embedded SDK code can raise. -/
inductive PyExc where
  | typeError
  | attributeError
  | keyError
deriving DecidableEq

/-- Python dict lookup (`d.get(k)` / `d[k]` presence): first binding wins. -/
def dlookup (entries : PyDict) (k : String) : Option PyVal :=
  match entries with
  | [] => Option.none
  | (k', v) :: tl => if k' = k then Option.some v else dlookup tl k

/-- Python truthiness (`bool(v)`). -/
def truthy : PyVal → Bool
  | .none => false
  | .bool b => b
  | .int n => n != 0
  | .float q => q != 0
  | .str s => s != ""
  | .list l => !l.isEmpty
  | .dict d => !d.isEmpty
  | .datetime _ _ _ _ _ _ => true

/-- Python `v is None`. -/
def pyIsNone : PyVal → Bool
  | .none => true
  | _ => false

/-- Python `isinstance(v, int)`: `bool` is a subclass of `int`. -/
def pyIsInt : PyVal → Bool
  | .int _ => true
  | .bool _ => true
  | _ => false

/-- Python `isinstance(v, (int, float))`: `bool` is a subclass of `int`. -/
def pyIsNum : PyVal → Bool
  | .int _ => true
  | .bool _ => true
  | .float _ => true
  | _ => false

/-- Python `v <= 0` for the numeric values the SDK compares (guarded by the
`isinstance` checks above, so other shapes are never reached). -/
def pyLeZero : PyVal → Bool
  | .int n => n ≤ 0
  | .bool b => !b
  | .float q => q ≤ 0
  | _ => false

/-- Whether `needle` occurs as a contiguous run inside `hay`. -/
def substringOf (needle hay : List Char) : Bool :=
  hay.tails.any (fun t => needle.isPrefixOf t)

/-- Python `k in v` for a string key: dict key test, substring test on `str`,
element test on `list`; other values are not containers (TypeError). -/
def pyContains : PyVal → String → Except PyExc Bool
  | .dict d, k => .ok (dlookup d k).isSome
  | .str s, k => .ok (substringOf k.toList s.toList)
  | .list l, k => .ok (l.any fun v => match v with | .str s => s == k | _ => false)
  | _, _ => .error .typeError

/-- Python `v[k]` for a string key: dict item access; `str`/`list` subscripts
require integers (TypeError), other values are not subscriptable. -/
def pyGetItem : PyVal → String → Except PyExc PyVal
  | .dict d, k =>
    match dlookup d k with
    | Option.some v => .ok v
    | Option.none => .error .keyError
  | _, _ => .error .typeError

/-- Python's whitespace class (`\s` in `re`, `str.strip`, `str.isspace`). -/
def pySpace (c : Char) : Bool :=
  let n := c.toNat
  (9 ≤ n && n ≤ 13) || n == 32 || (28 ≤ n && n ≤ 31) || n == 0x85 || n == 0xa0 ||
    n == 0x1680 || (0x2000 ≤ n && n ≤ 0x200a) || n == 0x2028 || n == 0x2029 ||
    n == 0x202f || n == 0x205f || n == 0x3000

/-- Python `str.strip()`: drop leading and trailing whitespace. -/
def pyStrip (s : String) : String :=
  String.mk (((s.toList.dropWhile pySpace).reverse.dropWhile pySpace).reverse)

/-- Python `str.upper()` restricted to ASCII: `a`..`z` map to `A`..`Z`,
other characters are left unchanged.  Python additionally uppercases
non-ASCII letters; here `pyUpper` only feeds the postal patterns, whose
character classes are ASCII-only (plus `\s`, on which `upper` is the
identity), so every string the model accepts is handled identically by
Python. -/
def pyUpper (s : String) : String :=
  String.mk (s.toList.map Char.toUpper)

/-- Python `str.lower()` as it bears on comparison against all-ASCII
strings.  Exactly the ASCII letters `A`..`Z` and U+212A (KELVIN SIGN, which
Python lowers to `k`) have an all-ASCII lowercase, so they are mapped as
Python maps them; every other character either is its own lowercase or
lowers to a string containing a non-ASCII character (the sole expanding
case, U+0130, lowers to `i` followed by U+0307).  Leaving those characters
unchanged therefore cannot change whether the lowered string equals an
all-ASCII name such as the sensitive-field names this map feeds: both sides
of the comparison then contain a non-ASCII character. -/
def pyLowerChar (c : Char) : Char :=
  if c.toNat == 0x212a then 'k'
  else if 'A' ≤ c && c ≤ 'Z' then Char.toLower c
  else c

/-- Python `str.lower()`, via `pyLowerChar`. -/
def pyLower (s : String) : String :=
  String.mk (s.toList.map pyLowerChar)

/-- The code-point ranges of the Unicode decimal digits (category Nd): the
character class Python's `\d` matches in a `str` pattern.  Generated from
the Unicode character database. -/
def ndRanges : List (Nat × Nat) :=
  [(48, 57), (1632, 1641), (1776, 1785), (1984, 1993), (2406, 2415),
   (2534, 2543), (2662, 2671), (2790, 2799), (2918, 2927), (3046, 3055),
   (3174, 3183), (3302, 3311), (3430, 3439), (3558, 3567), (3664, 3673),
   (3792, 3801), (3872, 3881), (4160, 4169), (4240, 4249), (6112, 6121),
   (6160, 6169), (6470, 6479), (6608, 6617), (6784, 6793), (6800, 6809),
   (6992, 7001), (7088, 7097), (7232, 7241), (7248, 7257), (42528, 42537),
   (43216, 43225), (43264, 43273), (43472, 43481), (43504, 43513), (43600, 43609),
   (44016, 44025), (65296, 65305), (66720, 66729), (68912, 68921), (69734, 69743),
   (69872, 69881), (69942, 69951), (70096, 70105), (70384, 70393), (70736, 70745),
   (70864, 70873), (71248, 71257), (71360, 71369), (71472, 71481), (71904, 71913),
   (72016, 72025), (72784, 72793), (73040, 73049), (73120, 73129), (92768, 92777),
   (92864, 92873), (93008, 93017), (120782, 120831), (123200, 123209), (123632, 123641),
   (125264, 125273), (130032, 130041)]

/-- Python's `\d` class: a Unicode decimal digit. -/
def pyIsDigit (c : Char) : Bool :=
  ndRanges.any (fun p => p.1 ≤ c.toNat && c.toNat ≤ p.2)

/-- From `utils.format_tracking_number`:
`tracking_number.strip().upper()`. -/
def format_tracking_number (tracking_number : String) : String :=
  pyUpper (pyStrip tracking_number)

/-- A character admitted by `[^\s@]` in the email pattern. -/
def emailOkChar (c : Char) : Bool :=
  !(pySpace c) && c != '@'

/-- Whether the part after the `@` can be split as `[^\s@]+ "." [^\s@]+`:
some dot strictly inside it. -/
def emailHasInnerDot (r : List Char) : Bool :=
  ((r.drop 1).dropLast).contains '.'

/-- The language of `[^\s@]+@[^\s@]+\.[^\s@]+` over a whole string: the local
part (everything before the first `@`, which is the only `@` the pattern can
consume) is nonempty and clean, the rest is clean and splits at an inner dot. -/
def emailCore (l : List Char) : Bool :=
  let a := l.takeWhile (fun c => c != '@')
  match l.dropWhile (fun c => c != '@') with
  | '@' :: r => !a.isEmpty && a.all emailOkChar && r.all emailOkChar && emailHasInnerDot r
  | _ => false

/-- The language of `re.match(r niceness, s)` with the email pattern anchored by
`$`: Python's `$` also matches just before one trailing newline. -/
def emailMatch (s : String) : Bool :=
  emailCore s.toList || (s.toList.getLast? == Option.some '\n' && emailCore s.toList.dropLast)

/-- From `utils.validate_email`: `re.match` of `^[^\s@]+@[^\s@]+\.[^\s@]+$`;
called on a non-string it raises (TypeError from `re.match`). -/
def validate_email : PyVal → Except PyExc Bool
  | .str s => .ok (emailMatch s)
  | _ => .error .typeError

/-- The digit count test of `utils.validate_phone`: strip non-digits
(`re.sub(r"\D", "", phone)`), then require 10 to 15 digits. -/
def phoneMatch (s : String) : Bool :=
  let digits := s.toList.filter pyIsDigit
  10 ≤ digits.length && digits.length ≤ 15

/-- From `utils.validate_phone`; non-strings raise (TypeError from `re.sub`). -/
def validate_phone : PyVal → Except PyExc Bool
  | .str s => .ok (phoneMatch s)
  | _ => .error .typeError

/-- Uppercase ASCII letter, the `[A-Z]` class. -/
def isUpperAZ (c : Char) : Bool :=
  'A' ≤ c && c ≤ 'Z'

/-- The `[A-Z\d]` class. -/
def isUpperOrDigit (c : Char) : Bool :=
  isUpperAZ c || pyIsDigit c

/-- US ZIP pattern `^\d{5}(-\d{4})?$`. -/
def usZipMatch (l : List Char) : Bool :=
  match l with
  | [a, b, c, d, e] => [a, b, c, d, e].all pyIsDigit
  | [a, b, c, d, e, dash, f, g, h, i] =>
    [a, b, c, d, e].all pyIsDigit && dash == '-' && [f, g, h, i].all pyIsDigit
  | _ => false

/-- Canadian pattern `^[A-Z]\d[A-Z]\s?\d[A-Z]\d$`. -/
def caPostalMatch (l : List Char) : Bool :=
  match l with
  | [a, b, c, d, e, f] =>
    isUpperAZ a && pyIsDigit b && isUpperAZ c && pyIsDigit d && isUpperAZ e && pyIsDigit f
  | [a, b, c, sp, d, e, f] =>
    isUpperAZ a && pyIsDigit b && isUpperAZ c && pySpace sp && pyIsDigit d && isUpperAZ e &&
      pyIsDigit f
  | _ => false

/-- One alternative of the UK pattern, fixing how many letters open the
outward code (`la`), whether the optional `[A-Z\d]` is taken (`o`) and whether
the optional `\s` is taken (`sp`). -/
def gbShape (la o sp : Nat) (l : List Char) : Bool :=
  l.length == la + 1 + o + sp + 3 &&
  (l.take la).all isUpperAZ &&
  (match l.get? la with | Option.some c => pyIsDigit c | Option.none => false) &&
  (o == 0 || match l.get? (la + 1) with | Option.some c => isUpperOrDigit c | Option.none => false) &&
  (sp == 0 || match l.get? (la + 1 + o) with | Option.some c => pySpace c | Option.none => false) &&
  (match l.get? (la + 1 + o + sp) with | Option.some c => pyIsDigit c | Option.none => false) &&
  (l.drop (la + 2 + o + sp)).all isUpperAZ

/-- UK pattern `^[A-Z]{1,2}\d[A-Z\d]?\s?\d[A-Z]{2}$` as the union of its
eight fixed shapes. -/
def gbPostalMatch (l : List Char) : Bool :=
  [1, 2].any fun la => [0, 1].any fun o => [0, 1].any fun sp => gbShape la o sp l

/-- Fallback pattern `^[A-Z0-9\s-]{3,10}$` for other countries.  Unlike the
`\d` of the US/CA/GB patterns, this class spells the literal ASCII range
`0-9`, so `Char.isDigit` is the exact test here. -/
def otherPostalMatch (l : List Char) : Bool :=
  3 ≤ l.length && l.length ≤ 10 &&
    l.all (fun c => isUpperAZ c || c.isDigit || pySpace c || c == '-')

/-- The string core of `utils.validate_postal_code`:
`postal_code.strip().upper()` then a country-specific pattern chosen by
`country.upper()`. -/
def postalMatch (pc cty : String) : Bool :=
  let p := (pyUpper (pyStrip pc)).toList
  let c := pyUpper cty
  if c = "US" then usZipMatch p
  else if c = "CA" then caPostalMatch p
  else if c = "GB" then gbPostalMatch p
  else otherPostalMatch p

/-- From `utils.validate_postal_code`.  A non-string postal code raises at
`.strip()`, a non-string country at `.upper()` (AttributeError in both
cases). -/
def validate_postal_code (postal_code country : PyVal) : Except PyExc Bool :=
  match postal_code with
  | .str pc =>
    match country with
    | .str cty => .ok (postalMatch pc cty)
    | _ => .error .attributeError
  | _ => .error .attributeError

/-- The message `f"'{field}' is required"` of `utils.validate_order_data`. -/
def reqMsg (field : String) : String :=
  "'" ++ field ++ "' is required"

/-- The required top-level order fields, in the source's order. -/
def requiredOrderFields : List String :=
  ["orderNumber", "recipientName", "recipientStreet1", "recipientCity",
   "recipientState", "recipientPostalCode", "recipientCountry", "items"]

/-- Whether a field passes the source's required-field test
`field in order_data and order_data[field]` (present and truthy). -/
def presentTruthy (d : PyDict) (f : String) : Bool :=
  match dlookup d f with
  | Option.some v => truthy v
  | Option.none => false

/-- The required-fields loop of `utils.validate_order_data`: one message per
field that is absent or falsy, in order. -/
def requiredSegment (d : PyDict) : List String :=
  requiredOrderFields.foldl (fun acc f => if presentTruthy d f then acc else acc ++ [reqMsg f]) []

/-- The recipient-email block of `utils.validate_order_data`: validated only
when the key is present with a truthy value. -/
def emailSegment (d : PyDict) : Except PyExc (List String) :=
  match dlookup d "recipientEmail" with
  | Option.some v =>
    if truthy v then do
      let ok ← validate_email v
      if ok then pure [] else pure ["Invalid recipient email format"]
    else pure []
  | Option.none => pure []

/-- The recipient-phone block of `utils.validate_order_data`. -/
def phoneSegment (d : PyDict) : Except PyExc (List String) :=
  match dlookup d "recipientPhone" with
  | Option.some v =>
    if truthy v then do
      let ok ← validate_phone v
      if ok then pure [] else pure ["Invalid recipient phone format"]
    else pure []
  | Option.none => pure []

/-- The postal-code block of `utils.validate_order_data`: runs whenever both
keys are present, whatever their values. -/
def postalSegment (d : PyDict) : Except PyExc (List String) :=
  match dlookup d "recipientPostalCode", dlookup d "recipientCountry" with
  | Option.some pc, Option.some cty => do
    let ok ← validate_postal_code pc cty
    if ok then pure [] else pure ["Invalid postal code format"]
  | _, _ => pure []

/-- The required item fields, in the source's order. -/
def itemRequiredFields : List String :=
  ["name", "sku", "quantity", "unitPrice", "weight", "weightUnit"]

/-- One step of the required-fields loop of `utils.validate_order_item`:
`field not in item or item[field] is None` appends a message; membership and
subscripting follow Python semantics on whatever value the item is. -/
def itemReqStep (item : PyVal) (pre : String) (acc : List String) (f : String) :
    Except PyExc (List String) := do
  let c ← pyContains item f
  if c then do
    let v ← pyGetItem item f
    if pyIsNone v then pure (acc ++ [pre ++ ": '" ++ f ++ "' is required"]) else pure acc
  else pure (acc ++ [pre ++ ": '" ++ f ++ "' is required"])

/-- A numeric check block of `utils.validate_order_item`: when the field is
present, `not isinstance(...) or value <= 0` appends `msg`.  The three blocks
(quantity, unitPrice, weight) share this shape, differing in the `isinstance`
class and the message. -/
def itemNumCheck (item : PyVal) (field : String) (isType : PyVal → Bool) (msg : String) :
    Except PyExc (List String) := do
  let c ← pyContains item field
  if c then do
    let v ← pyGetItem item field
    if !(isType v) || pyLeZero v then pure [msg] else pure []
  else pure []

/-- The weight-unit block of `utils.validate_order_item`:
`item['weightUnit'] not in ['lb', 'kg', 'oz', 'g']` (Python `in` over a list
of strings: equality, and a non-string never equals a string). -/
def weightUnitCheck (item : PyVal) (pre : String) : Except PyExc (List String) := do
  let c ← pyContains item "weightUnit"
  if c then do
    let v ← pyGetItem item "weightUnit"
    if ["lb", "kg", "oz", "g"].any (fun u => match v with | .str s => s == u | _ => false)
    then pure []
    else pure [pre ++ ": weightUnit must be one of ['lb', 'kg', 'oz', 'g']"]
  else pure []

/-- From `utils.validate_order_item`: collect the item's violations in source
order; `index` feeds the `Item {index + 1}` prefix. -/
def validate_order_item (item : PyVal) (index : Nat) : Except PyExc (List String) := do
  let pre := "Item " ++ toString (index + 1)
  let reqErrs ← itemRequiredFields.foldlM (itemReqStep item pre) []
  let qErrs ← itemNumCheck item "quantity" pyIsInt (pre ++ ": quantity must be a positive integer")
  let upErrs ← itemNumCheck item "unitPrice" pyIsNum (pre ++ ": unitPrice must be a positive number")
  let wErrs ← itemNumCheck item "weight" pyIsNum (pre ++ ": weight must be a positive number")
  let wuErrs ← weightUnitCheck item pre
  pure (reqErrs ++ qErrs ++ upErrs ++ wErrs ++ wuErrs)

/-- The item loop of `utils.validate_order_data`: `enumerate(items)` feeding
`validate_order_item`, extending one error list. -/
def validateItems : List PyVal → Nat → Except PyExc (List String)
  | [], _ => pure []
  | it :: tl, i => do
    let e ← validate_order_item it i
    let rest ← validateItems tl (i + 1)
    pure (e ++ rest)

/-- The items block of `utils.validate_order_data`: only entered when the key
is present; a non-list or empty list yields the items-required message,
otherwise every item is validated independently. -/
def itemsSegment (d : PyDict) : Except PyExc (List String) :=
  match dlookup d "items" with
  | Option.some (.list its) =>
    if its.isEmpty then pure ["At least one item is required"]
    else validateItems its 0
  | Option.some _ => pure ["At least one item is required"]
  | Option.none => pure []

/-- From `utils.validate_order_data`: all violations are collected in source
order (required fields, email, phone, postal code, items); a Python exception
raised by any block aborts with that exception. -/
def validate_order_data (d : PyDict) : Except PyExc (List String) := do
  let req := requiredSegment d
  let em ← emailSegment d
  let ph ← phoneSegment d
  let po ← postalSegment d
  let it ← itemsSegment d
  pure (req ++ em ++ ph ++ po ++ it)

/-- The kinds of the SDK's exception taxonomy (`exceptions.py`). -/
inductive ErrKind where
  | base
  | validation
  | authentication
  | authorization
  | notFound
  | rateLimit
  | server
  | network
  | timeout
  | configuration
deriving DecidableEq

/-- An instance of the SDK's exception hierarchy: every class carries
`message`, `code` and `details` (the base `__init__` stores
`details or {}`); `RateLimitError` additionally stores `retry_after`. -/
inductive SdkErr where
  | base (message : PyVal) (code : Option PyVal) (details : PyVal)
  | validation (message : PyVal) (code : Option PyVal) (details : PyVal)
  | authentication (message : PyVal) (code : Option PyVal) (details : PyVal)
  | authorization (message : PyVal) (code : Option PyVal) (details : PyVal)
  | notFound (message : PyVal) (code : Option PyVal) (details : PyVal)
  | rateLimit (message : PyVal) (code : Option PyVal) (details : PyVal) (retry_after : Option PyVal)
  | server (message : PyVal) (code : Option PyVal) (details : PyVal)
  | network (message : PyVal) (code : Option PyVal) (details : PyVal)
  | timeout (message : PyVal) (code : Option PyVal) (details : PyVal)
  | configuration (message : PyVal) (code : Option PyVal) (details : PyVal)

/-- The class (kind) of an embedded SDK exception. -/
def SdkErr.kind : SdkErr → ErrKind
  | .base _ _ _ => .base
  | .validation _ _ _ => .validation
  | .authentication _ _ _ => .authentication
  | .authorization _ _ _ => .authorization
  | .notFound _ _ _ => .notFound
  | .rateLimit _ _ _ _ => .rateLimit
  | .server _ _ _ => .server
  | .network _ _ _ => .network
  | .timeout _ _ _ => .timeout
  | .configuration _ _ _ => .configuration

/-- The `message = response_data.get('error', 'Unknown error')` extraction of
`exceptions.create_error_from_response`. -/
def msgOf (b : PyDict) : PyVal :=
  (dlookup b "error").getD (.str "Unknown error")

/-- The `code = response_data.get('code')` extraction. -/
def codeOf (b : PyDict) : Option PyVal :=
  dlookup b "code"

/-- The `details = response_data.get('details', {})` extraction (the raw value
handed to the exception constructor). -/
def rawDetailsOf (b : PyDict) : PyVal :=
  (dlookup b "details").getD (.dict [])

/-- The base constructor's `self.details = details or {}`. -/
def storedDetails (v : PyVal) : PyVal :=
  if truthy v then v else .dict []

/-- `RateLimitError.__init__`'s
`self.retry_after = details.get('retryAfter') if details else None`: a truthy
non-dict has no `.get` (AttributeError). -/
def rateLimitRetryAfter (details : PyVal) : Except PyExc (Option PyVal) :=
  if truthy details then
    match details with
    | .dict d => .ok (dlookup d "retryAfter")
    | _ => .error .attributeError
  else .ok Option.none

/-- From `exceptions.create_error_from_response`: map an HTTP status and a
parsed response body to the SDK exception the source builds, with `message`,
`code` and `details` extracted from the body's `error`, `code` and `details`
fields. -/
def create_error_from_response (status : Int) (b : PyDict) : Except PyExc SdkErr :=
  let message := msgOf b
  let code := codeOf b
  let details := rawDetailsOf b
  if status = 400 then .ok (.validation message code (storedDetails details))
  else if status = 401 then .ok (.authentication message code (storedDetails details))
  else if status = 403 then .ok (.authorization message code (storedDetails details))
  else if status = 404 then .ok (.notFound message code (storedDetails details))
  else if status = 429 then do
    let ra ← rateLimitRetryAfter details
    pure (.rateLimit message code (storedDetails details) ra)
  else if 500 ≤ status ∧ status < 600 then .ok (.server message code (storedDetails details))
  else .ok (.base message code (storedDetails details))

/-- From `exceptions.is_retriable_error`: `NetworkError`, `TimeoutError` and
`ServerError` are retriable; `RateLimitError` is explicitly not ("Handle rate
limits differently"); everything else is not. -/
def is_retriable_error (e : SdkErr) : Bool :=
  match e with
  | .network _ _ _ => true
  | .timeout _ _ _ => true
  | .server _ _ _ => true
  | .rateLimit _ _ _ _ => false
  | _ => false

/-- What a retried request attempt can raise: a Python-level exception or an
SDK exception. -/
abbrev ReqErr := PyExc ⊕ SdkErr

/-- `is_retriable_error` over anything an attempt can raise: a raw Python
exception is no `atoshipError` subclass, so all its `isinstance` checks fail. -/
def retriableReqErr : ReqErr → Bool
  | .inl _ => false
  | .inr e => is_retriable_error e

/-- The observable outcome of running `utils.retry_with_backoff`'s wrapper:
the value returned or exception raised, how many attempts ran, and the
backoff delays slept between attempts. -/
structure RetryTrace (α : Type) where
  result : Except ReqErr α
  attempts : Nat
  sleeps : List Rat

/-- The loop of `utils.retry_with_backoff`'s wrapper.  `attempt` is the
current index; `remaining` counts down to the final attempt (so
`remaining = 0` is the `attempt == max_retries` iteration, which breaks
without sleeping).  A non-retriable failure breaks at once; a retriable one
sleeps `base_delay * (2 ** attempt)` and retries.  The exception raised after
the loop is always the last one caught. -/
def retryGo (f : Nat → Except ReqErr α) (base_delay : Rat) :
    Nat → Nat → List Rat → RetryTrace α
  | attempt, 0, sleeps =>
    match f attempt with
    | .ok a => ⟨.ok a, attempt + 1, sleeps⟩
    | .error e => ⟨.error e, attempt + 1, sleeps⟩
  | attempt, remaining + 1, sleeps =>
    match f attempt with
    | .ok a => ⟨.ok a, attempt + 1, sleeps⟩
    | .error e =>
      if retriableReqErr e then
        retryGo f base_delay (attempt + 1) remaining (sleeps ++ [base_delay * 2 ^ attempt])
      else ⟨.error e, attempt + 1, sleeps⟩

/-- From `utils.retry_with_backoff`: run the wrapped function for
`attempt in range(max_retries + 1)`, i.e. at most `max_retries + 1` attempts.
The attempt function is indexed by attempt number so that each attempt's
outcome can differ. -/
def retry_with_backoff (f : Nat → Except ReqErr α) (max_retries : Nat) (base_delay : Rat) :
    RetryTrace α :=
  retryGo f base_delay 0 max_retries []

/-- The client's configuration, as stored by `atoshipSDK.__init__`. -/
structure SdkConfig where
  api_key : String
  base_url : String
  timeout : Rat
  max_retries : Nat
  debug : Bool

/-- What one HTTP attempt inside `atoshipSDK._make_request` can come back
with: a response (modelled after JSON parsing; a body that fails to parse is
represented by the source's fallback dict `{'error': 'Invalid JSON response'}`),
an `httpx.TimeoutException`, an `httpx.NetworkError`, or another
`httpx.HTTPError`. -/
inductive AttemptOutcome where
  | response (status : Int) (body : PyDict)
  | timedOut
  | netFail (msg : String)
  | httpFail (msg : String)

/-- From `atoshipSDK._handle_response`: a 2xx response returns the parsed
body; otherwise the error built by `create_error_from_response` is raised. -/
def handle_response (status : Int) (body : PyDict) : Except ReqErr PyDict :=
  if 200 ≤ status ∧ status < 300 then .ok body
  else
    match create_error_from_response status body with
    | .ok e => .error (.inr e)
    | .error pe => .error (.inl pe)

/-- The `try/except` body of the inner `make_request` in
`atoshipSDK._make_request`: an `httpx.TimeoutException` is re-raised as the
SDK's `TimeoutError("Request timed out")`, an `httpx.NetworkError` as
`NetworkError(f"Network error: ...")`, any other `httpx.HTTPError` as
`NetworkError(f"HTTP error: ...")`. -/
def runAttempt : AttemptOutcome → Except ReqErr PyDict
  | .response s b => handle_response s b
  | .timedOut => .error (.inr (.timeout (.str "Request timed out") Option.none (.dict [])))
  | .netFail m => .error (.inr (.network (.str ("Network error: " ++ m)) Option.none (.dict [])))
  | .httpFail m => .error (.inr (.network (.str ("HTTP error: " ++ m)) Option.none (.dict [])))

/-- From `atoshipSDK._make_request`: the inner `make_request` is decorated
with a BARE `@retry_with_backoff`, so the decorator's own defaults apply:
`max_retries = 3` and `base_delay = 1.0`.  The client's stored
`cfg.max_retries` is never passed to the decorator, so it does not influence
the retry loop. -/
def make_request (cfg : SdkConfig) (f : Nat → AttemptOutcome) : RetryTrace PyDict :=
  retry_with_backoff (fun k => runAttempt (f k)) 3 1

/-- An HTTP request a facade hands to the transport layer. -/
structure NetRequest where
  method : String
  endpoint : String
  body : Option PyVal

/-- The observable outcome of a facade method's pre-network phase: it raises
a Python exception, raises an SDK exception, or reaches the transport layer
with a request.  The facade methods read configuration but never write it, so
client state is unchanged in every branch. -/
inductive CallResult where
  | raisesPy (e : PyExc)
  | raisesSdk (e : SdkErr)
  | sends (r : NetRequest)

/-- The per-order validation loop of `atoshipSDK.create_orders_batch`: the
first order with errors raises
`ValidationError(f"Order {i+1} validation failed: {'; '.join(errors)}")`. -/
def batchValidateLoop : List PyDict → Nat → Except PyExc (Option String)
  | [], _ => .ok Option.none
  | od :: tl, i =>
    match validate_order_data od with
    | .error pe => .error pe
    | .ok errs =>
      if errs.isEmpty then batchValidateLoop tl (i + 1)
      else .ok (Option.some
        ("Order " ++ toString (i + 1) ++ " validation failed: " ++ String.intercalate "; " errs))

/-- From `atoshipSDK.create_orders_batch`: an empty batch or a batch of more
than 100 orders raises a `ValidationError` before anything else; otherwise
each order is validated and the request `POST /api/orders/batch` with body
`{'orders': orders}` is handed to `_make_request`. -/
def create_orders_batch (orders : List PyDict) : CallResult :=
  if orders.isEmpty then
    .raisesSdk (.validation (.str "At least one order is required for batch creation")
      Option.none (.dict []))
  else if orders.length > 100 then
    .raisesSdk (.validation (.str "Maximum 100 orders allowed per batch") Option.none (.dict []))
  else
    match batchValidateLoop orders 0 with
    | .error pe => .raisesPy pe
    | .ok (Option.some m) => .raisesSdk (.validation (.str m) Option.none (.dict []))
    | .ok Option.none =>
      .sends ⟨"POST", "/api/orders/batch",
        Option.some (.dict [("orders", .list (orders.map PyVal.dict))])⟩

/-- From `atoshipSDK.track_multiple`: more than 50 tracking numbers raise a
`ValidationError` before anything else; otherwise each number is formatted
and `POST /api/tracking/batch` is handed to `_make_request`. -/
def track_multiple (tracking_numbers : List String) : CallResult :=
  if tracking_numbers.length > 50 then
    .raisesSdk (.validation (.str "Maximum 50 tracking numbers allowed per request")
      Option.none (.dict []))
  else
    .sends ⟨"POST", "/api/tracking/batch",
      Option.some (.dict [("trackingNumbers",
        .list (tracking_numbers.map (fun tn => .str (format_tracking_number tn))))])⟩

/-- The default `sensitive_fields` of `utils.mask_sensitive_data`. -/
def defaultSensitiveFields : List String :=
  ["password", "apiKey", "api_key", "secret", "token", "key"]

/-- The key test of `utils.mask_sensitive_data`:
`key.lower() in [field.lower() for field in sensitive_fields]`. -/
def isSensitiveKey (fields : List String) (k : String) : Bool :=
  (fields.map pyLower).contains (pyLower k)

/-- The replacement `utils.mask_sensitive_data` installs for a sensitive key:
a string longer than 4 characters keeps its first two and last two characters
around a run of asterisks of the replaced middle's length; anything else
becomes `"***"`. -/
def maskValue (v : PyVal) : PyVal :=
  match v with
  | .str s =>
    if s.length > 4 then
      .str (String.mk (s.toList.take 2) ++ String.mk (List.replicate (s.length - 4) '*') ++
        String.mk (s.toList.drop (s.length - 2)))
    else .str "***"
  | _ => .str "***"

/-- The entry loop of `utils.mask_sensitive_data` over a dict's items:
sensitive keys get `maskValue`; a non-sensitive dict value is masked
recursively with the same field list; all other entries are kept. -/
def maskEntries (fields : List String) : PyDict → PyDict
  | [] => []
  | (k, v) :: tl =>
    (k, if isSensitiveKey fields k then maskValue v
        else match v with
             | .dict d => .dict (maskEntries fields d)
             | w => w) :: maskEntries fields tl

/-- From `utils.mask_sensitive_data` with its default field list. -/
def mask_sensitive_data (d : PyDict) : PyDict :=
  maskEntries defaultSensitiveFields d

/-- A `datetime.datetime` value (date and time components). -/
structure PyDateTime where
  year : Nat
  month : Nat
  day : Nat
  hour : Nat
  minute : Nat
  second : Nat
deriving DecidableEq

/-- Digits to a number, most significant first. -/
def digitsToNat (l : List Char) : Nat :=
  l.foldl (fun a c => a * 10 + (c.toNat - 48)) 0

/-- Parse the canonical ISO form `YYYY-MM-DDTHH:MM:SS` into a datetime.
Pydantic accepts further datetime spellings; the claims here only need that
ISO strings are parsed into datetime objects, which this subset exhibits. -/
def parseIsoDatetime (s : String) : Option PyDateTime :=
  match s.toList with
  | [y1, y2, y3, y4, '-', m1, m2, '-', d1, d2, 'T', h1, h2, ':', i1, i2, ':', s1, s2] =>
    if [y1, y2, y3, y4, m1, m2, d1, d2, h1, h2, i1, i2, s1, s2].all Char.isDigit then
      Option.some ⟨digitsToNat [y1, y2, y3, y4], digitsToNat [m1, m2], digitsToNat [d1, d2],
        digitsToNat [h1, h2], digitsToNat [i1, i2], digitsToNat [s1, s2]⟩
    else Option.none
  | _ => Option.none

/-- The `models.Address` pydantic model: its fields with their Python types
(`type` is an `AddressType`, stored as its string value because of
`use_enum_values`). -/
structure AddressModel where
  id : Option String
  type : String
  name : String
  company : Option String
  street1 : String
  street2 : Option String
  city : String
  state : String
  postal_code : String
  country : String
  phone : Option String
  email : Option String
  is_default : Option Bool
  is_validated : Option Bool
  created_at : Option PyDateTime
  updated_at : Option PyDateTime

/-- Pydantic parsing of a required `str` field: strings pass, numbers are
coerced with `str()`; other shapes fail validation. -/
def parseStr : PyVal → Except Unit String
  | .str s => .ok s
  | .int n => .ok (toString n)
  | _ => .error ()

/-- Pydantic parsing of an `Optional[str]` field. -/
def parseOptStr : PyVal → Except Unit (Option String)
  | .none => .ok Option.none
  | v => (parseStr v).map Option.some

/-- Pydantic parsing of an `Optional[bool]` field for the shapes the wire
format carries (JSON booleans and null). -/
def parseOptBool : PyVal → Except Unit (Option Bool)
  | .none => .ok Option.none
  | .bool b => .ok (Option.some b)
  | _ => .error ()

/-- Pydantic parsing of the `type: AddressType` field with
`use_enum_values = True`: a valid enum value string is stored as that
string. -/
def parseAddressType : PyVal → Except Unit String
  | .str s => if s = "SHIPPING" ∨ s = "BILLING" then .ok s else .error ()
  | _ => .error ()

/-- Pydantic parsing of an `Optional[datetime]` field: null stays null, a
datetime object passes through, an ISO string is PARSED INTO a datetime
object. -/
def parseOptDatetime : PyVal → Except Unit (Option PyDateTime)
  | .none => .ok Option.none
  | .datetime y mo d h mi s => .ok (Option.some ⟨y, mo, d, h, mi, s⟩)
  | .str s =>
    match parseIsoDatetime s with
    | Option.some dt => .ok (Option.some dt)
    | Option.none => .error ()
  | _ => .error ()

/-- Constructing `models.Address` from a wire-format (aliased) dict, as
`Address(**data)` does: each field is read under its alias (`postalCode`,
`isDefault`, `isValidated`, `createdAt`, `updatedAt`; the rest alias to their
own name), missing optional fields take their declared defaults
(`is_default`/`is_validated` default to `False`, the other optionals to
`None`), and missing required fields fail validation. -/
def addressFromWire (w : PyDict) : Except Unit AddressModel := do
  let idv ← parseOptStr ((dlookup w "id").getD .none)
  let tv ← parseAddressType ((dlookup w "type").getD .none)
  let nv ← parseStr ((dlookup w "name").getD .none)
  let cov ← parseOptStr ((dlookup w "company").getD .none)
  let s1v ← parseStr ((dlookup w "street1").getD .none)
  let s2v ← parseOptStr ((dlookup w "street2").getD .none)
  let civ ← parseStr ((dlookup w "city").getD .none)
  let stv ← parseStr ((dlookup w "state").getD .none)
  let pcv ← parseStr ((dlookup w "postalCode").getD .none)
  let cnv ← parseStr ((dlookup w "country").getD .none)
  let phv ← parseOptStr ((dlookup w "phone").getD .none)
  let emv ← parseOptStr ((dlookup w "email").getD .none)
  let dfv ← match dlookup w "isDefault" with
    | Option.some v => parseOptBool v
    | Option.none => .ok (Option.some false)
  let vav ← match dlookup w "isValidated" with
    | Option.some v => parseOptBool v
    | Option.none => .ok (Option.some false)
  let cav ← parseOptDatetime ((dlookup w "createdAt").getD .none)
  let uav ← parseOptDatetime ((dlookup w "updatedAt").getD .none)
  pure ⟨idv, tv, nv, cov, s1v, s2v, civ, stv, pcv, cnv, phv, emv, dfv, vav, cav, uav⟩

/-- An optional string back to its Python value. -/
def optStrVal : Option String → PyVal
  | Option.none => .none
  | Option.some s => .str s

/-- An optional bool back to its Python value. -/
def optBoolVal : Option Bool → PyVal
  | Option.none => .none
  | Option.some b => .bool b

/-- An optional datetime back to its Python value: `.dict()` keeps datetime
OBJECTS, it does not render them back to strings. -/
def optDtVal : Option PyDateTime → PyVal
  | Option.none => .none
  | Option.some dt => .datetime dt.year dt.month dt.day dt.hour dt.minute dt.second

/-- `Address.dict(by_alias=True)`: every declared field, in declaration
order, under its alias. -/
def addressDictByAlias (m : AddressModel) : PyDict :=
  [("id", optStrVal m.id),
   ("type", .str m.type),
   ("name", .str m.name),
   ("company", optStrVal m.company),
   ("street1", .str m.street1),
   ("street2", optStrVal m.street2),
   ("city", .str m.city),
   ("state", .str m.state),
   ("postalCode", .str m.postal_code),
   ("country", .str m.country),
   ("phone", optStrVal m.phone),
   ("email", optStrVal m.email),
   ("isDefault", optBoolVal m.is_default),
   ("isValidated", optBoolVal m.is_validated),
   ("createdAt", optDtVal m.created_at),
   ("updatedAt", optDtVal m.updated_at)]

/-- C1: the error-mapping function is a pure, deterministic Lean function of
(status code, response body).  It returns AuthenticationError for 401,
AuthorizationError for 403, NotFoundError for 404, RateLimitError for 429
with `retry_after` equal to the body's `details.retryAfter` when the details
are a dict (and `retry_after = 60` for the body
`{details: {retryAfter: 60}}`), and ServerError for every status in
500..599; `message`, `code` and `details` are extracted from the body's
`error`, `code` and `details` fields (`msgOf`, `codeOf`, `rawDetailsOf`). -/
theorem classify_status_mapping :
    (∀ b : PyDict, create_error_from_response 401 b =
      .ok (.authentication (msgOf b) (codeOf b) (storedDetails (rawDetailsOf b)))) ∧
    (∀ b : PyDict, create_error_from_response 403 b =
      .ok (.authorization (msgOf b) (codeOf b) (storedDetails (rawDetailsOf b)))) ∧
    (∀ b : PyDict, create_error_from_response 404 b =
      .ok (.notFound (msgOf b) (codeOf b) (storedDetails (rawDetailsOf b)))) ∧
    (∀ (s : Int) (b : PyDict), 500 ≤ s → s < 600 → create_error_from_response s b =
      .ok (.server (msgOf b) (codeOf b) (storedDetails (rawDetailsOf b)))) ∧
    (∀ (b : PyDict) (det : PyDict), rawDetailsOf b = .dict det →
      create_error_from_response 429 b =
        .ok (.rateLimit (msgOf b) (codeOf b) (storedDetails (.dict det))
          (dlookup det "retryAfter"))) ∧
    create_error_from_response 429 [("details", .dict [("retryAfter", .int 60)])] =
      .ok (.rateLimit (.str "Unknown error") Option.none (.dict [("retryAfter", .int 60)])
        (Option.some (.int 60))) := by
  refine ⟨fun b => by norm_num [create_error_from_response],
          fun b => by norm_num [create_error_from_response],
          fun b => by norm_num [create_error_from_response],
          fun s b h1 h2 => ?_,
          fun b det h => ?_,
          rfl⟩
  · unfold create_error_from_response
    rw [if_neg (by omega), if_neg (by omega), if_neg (by omega), if_neg (by omega),
      if_neg (by omega), if_pos ⟨h1, h2⟩]
  · norm_num [create_error_from_response, h]
    cases det with
    | nil => simp [rateLimitRetryAfter, truthy, storedDetails, dlookup, Except.bind]
    | cons hd tl => simp [rateLimitRetryAfter, truthy, storedDetails, Except.bind]

/-- Witness for C1 at concrete inputs: a 503 maps to ServerError with the
default message, and the documented 429 body yields `retry_after = 60`. -/
theorem classify_status_mapping_witness :
    create_error_from_response 503 [] =
      .ok (.server (.str "Unknown error") Option.none (.dict [])) ∧
    create_error_from_response 429 [("details", .dict [("retryAfter", .int 60)])] =
      .ok (.rateLimit (.str "Unknown error") Option.none (.dict [("retryAfter", .int 60)])
        (Option.some (.int 60))) :=
  ⟨classify_status_mapping.2.2.2.1 503 [] (by norm_num) (by norm_num),
   classify_status_mapping.2.2.2.2.2⟩

/-- C7 (amended): HTTP status 400 ALSO maps to ValidationError, so a
ValidationError can derive from an HTTP response; every response status
other than 400, 401, 403, 404, 429 and 500..599 maps to the generic base
error. -/
theorem base_error_for_unlisted_statuses :
    (∀ (s : Int) (b : PyDict), s ≠ 400 → s ≠ 401 → s ≠ 403 → s ≠ 404 → s ≠ 429 →
      ¬(500 ≤ s ∧ s < 600) →
      create_error_from_response s b =
        .ok (.base (msgOf b) (codeOf b) (storedDetails (rawDetailsOf b)))) ∧
    (∀ b : PyDict, create_error_from_response 400 b =
      .ok (.validation (msgOf b) (codeOf b) (storedDetails (rawDetailsOf b)))) := by
  constructor
  · intro s b h400 h401 h403 h404 h429 h5xx
    unfold create_error_from_response
    rw [if_neg h400, if_neg h401, if_neg h403, if_neg h404, if_neg h429, if_neg h5xx]
  · intro b
    norm_num [create_error_from_response]

/-- Witness for C7 at a concrete input: 418 is outside the taxonomy and maps
to the base error. -/
theorem base_error_for_unlisted_statuses_witness :
    create_error_from_response 418 [] =
      .ok (.base (.str "Unknown error") Option.none (.dict [])) :=
  base_error_for_unlisted_statuses.1 418 [] (by norm_num) (by norm_num) (by norm_num)
    (by norm_num) (by norm_num) (by norm_num)

/-- Counterexample to C7 as stated: HTTP status 400 is not one of 401, 403,
404, 429 or 500..599, yet `create_error_from_response` maps it to a
ValidationError, not to the generic base error — so a ValidationError can
derive from an HTTP status. -/
theorem validation_error_from_http_status_counterexample :
    create_error_from_response 400 [] =
      .ok (.validation (.str "Unknown error") Option.none (.dict [])) ∧
    (SdkErr.validation (.str "Unknown error") Option.none (.dict [])).kind ≠ ErrKind.base :=
  ⟨rfl, by decide⟩

/-- C3 (amended): at the transport/retry layer a failure is retriable
exactly when it is a NetworkError (network failure), TimeoutError (timeout)
or ServerError (HTTP 5xx); a RateLimitError (HTTP 429) is deliberately NOT
retriable ("Handle rate limits differently"), and any non-retriable failure
of the first attempt is raised immediately, with exactly one attempt made. -/
theorem retriable_exactly_network_timeout_server :
    (∀ e : SdkErr, is_retriable_error e = true ↔
      (e.kind = .network ∨ e.kind = .timeout ∨ e.kind = .server)) ∧
    (∀ e : SdkErr, e.kind = .rateLimit → is_retriable_error e = false) ∧
    (∀ (f : Nat → Except ReqErr PyDict) (e : ReqErr) (m : Nat) (bd : Rat),
      f 0 = .error e → retriableReqErr e = false →
      (retry_with_backoff f m bd).attempts = 1 ∧
      (retry_with_backoff f m bd).result = .error e) := by
  refine ⟨fun e => ?_, fun e h => ?_, fun f e m bd h1 h2 => ?_⟩
  · cases e <;> simp [is_retriable_error, SdkErr.kind]
  · cases e <;> simp_all [is_retriable_error, SdkErr.kind]
  · cases m with
    | zero => constructor <;> simp [retry_with_backoff, retryGo, h1]
    | succ m => constructor <;> simp [retry_with_backoff, retryGo, h1, h2]

/-- Witness for C3 at a concrete input: a first attempt failing with a
client-side 4xx ValidationError is attempted exactly once. -/
theorem retriable_exactly_network_timeout_server_witness :
    (retry_with_backoff
      (fun _ => .error (.inr (.validation (.str "Bad request") Option.none (.dict []))) :
        Nat → Except ReqErr PyDict) 3 1).attempts = 1 :=
  (retriable_exactly_network_timeout_server.2.2
    (fun _ => .error (.inr (.validation (.str "Bad request") Option.none (.dict []))))
    (.inr (.validation (.str "Bad request") Option.none (.dict []))) 3 1 rfl rfl).1

/-- Counterexample to C3 as stated: an HTTP 429 rate-limit error is NOT
classified as retriable by `is_retriable_error`, and a first attempt failing
with it is not retried (one attempt only). -/
theorem rate_limit_not_retriable_counterexample :
    is_retriable_error (.rateLimit (.str "Rate limit exceeded") Option.none
      (.dict [("retryAfter", .int 60)]) (Option.some (.int 60))) = false ∧
    (retry_with_backoff
      (fun _ => .error (.inr (.rateLimit (.str "Rate limit exceeded") Option.none
        (.dict []) Option.none)) : Nat → Except ReqErr PyDict) 3 1).attempts = 1 :=
  ⟨rfl, rfl⟩

/-- C2 (code bug, evaluated at the failing input): `_make_request` decorates
its inner function with a bare `@retry_with_backoff`, so the decorator's
default `max_retries = 3` governs the loop and the `max_retries` supplied at
construction is ignored.  With a client constructed with `max_retries = 5`
(and likewise with `max_retries = 0`) and every attempt answering HTTP 503,
exactly 4 attempts run (3 retries, not the configured number), the backoff
sleeps are `base_delay * 2 ** attempt = [1, 2, 4]`, and the error of the
last attempt is raised. -/
theorem make_request_ignores_configured_max_retries :
    (make_request ⟨"test-api-key", "https://api.test.com", 30, 5, false⟩
      (fun _ => .response 503 [])).attempts = 4 ∧
    (make_request ⟨"test-api-key", "https://api.test.com", 30, 0, false⟩
      (fun _ => .response 503 [])).attempts = 4 ∧
    (make_request ⟨"test-api-key", "https://api.test.com", 30, 5, false⟩
      (fun _ => .response 503 [])).sleeps = [1, 2, 4] ∧
    (make_request ⟨"test-api-key", "https://api.test.com", 30, 5, false⟩
      (fun _ => .response 503 [])).result =
      .error (.inr (.server (.str "Unknown error") Option.none (.dict []))) := by
  refine ⟨rfl, rfl, ?_, rfl⟩
  simp [make_request, retry_with_backoff, retryGo, runAttempt, handle_response,
    create_error_from_response, retriableReqErr, is_retriable_error]
  norm_num

/-- C4 (code bug, evaluated at the failing input): an attempt that hits the
configured timeout (`httpx.TimeoutException`) is re-raised as the SDK's
`TimeoutError`, which `retry_with_backoff` retries and finally raises to the
caller as-is — its kind is `timeout`, NOT `network`, so the caller of a
public SDK method does receive a bare `TimeoutError` rather than a
`NetworkError` (the repository's own test expects `NetworkError`). -/
theorem timeout_error_reaches_caller_unwrapped :
    (make_request ⟨"test-api-key", "https://api.test.com", 30, 3, false⟩
      (fun _ => .timedOut)).result =
      .error (.inr (.timeout (.str "Request timed out") Option.none (.dict []))) ∧
    (SdkErr.timeout (.str "Request timed out") Option.none (.dict [])).kind ≠
      ErrKind.network :=
  ⟨rfl, by decide⟩

/-- C6: `create_orders_batch` with 0 orders or more than 100 orders, and
`track_multiple` with more than 50 tracking numbers, raise a
`ValidationError` as their very first step: the outcome is `raisesSdk`, not
`sends`, so no `NetRequest` ever reaches the transport layer — and the
embedded methods only read the client's configuration, never write it. -/
theorem batch_limits_raise_validation_before_network :
    (∀ orders : List PyDict, orders.length = 0 →
      create_orders_batch orders =
        .raisesSdk (.validation (.str "At least one order is required for batch creation")
          Option.none (.dict []))) ∧
    (∀ orders : List PyDict, orders.length > 100 →
      create_orders_batch orders =
        .raisesSdk (.validation (.str "Maximum 100 orders allowed per batch")
          Option.none (.dict []))) ∧
    (∀ tns : List String, tns.length > 50 →
      track_multiple tns =
        .raisesSdk (.validation (.str "Maximum 50 tracking numbers allowed per request")
          Option.none (.dict []))) := by
  refine ⟨fun orders h => ?_, fun orders h => ?_, fun tns h => ?_⟩
  · have : orders = [] := List.eq_nil_of_length_eq_zero h
    subst this; rfl
  · have h0 : orders ≠ [] := by intro e; subst e; simp at h
    simp [create_orders_batch, List.isEmpty_iff, h0, h]
  · simp [track_multiple, h]

/-- Witness for C6 at concrete inputs: the empty batch, a batch of 101
orders, and 51 tracking numbers. -/
theorem batch_limits_raise_validation_before_network_witness :
    create_orders_batch [] =
      .raisesSdk (.validation (.str "At least one order is required for batch creation")
        Option.none (.dict [])) ∧
    create_orders_batch (List.replicate 101 []) =
      .raisesSdk (.validation (.str "Maximum 100 orders allowed per batch")
        Option.none (.dict [])) ∧
    track_multiple (List.replicate 51 "1Z999AA1234567890") =
      .raisesSdk (.validation (.str "Maximum 50 tracking numbers allowed per request")
        Option.none (.dict [])) :=
  ⟨batch_limits_raise_validation_before_network.1 [] rfl,
   batch_limits_raise_validation_before_network.2.1 (List.replicate 101 []) (by simp),
   batch_limits_raise_validation_before_network.2.2 (List.replicate 51 "1Z999AA1234567890")
     (by simp)⟩

/-- The value `utils.mask_sensitive_data` stores for the entry `(k, v)`:
`maskValue v` for a sensitive key, the recursively masked dict for a
non-sensitive dict value, and `v` itself otherwise. -/
def maskedEntryValue (fields : List String) (k : String) (v : PyVal) : PyVal :=
  if isSensitiveKey fields k then maskValue v
  else match v with
       | .dict e => .dict (maskEntries fields e)
       | w => w

theorem maskEntries_cons (fields : List String) (k : String) (v : PyVal) (tl : PyDict) :
    maskEntries fields ((k, v) :: tl) =
      (k, maskedEntryValue fields k v) :: maskEntries fields tl := by
  unfold maskedEntryValue
  cases v <;> rw [maskEntries] <;> intro d h <;> cases h

theorem maskEntries_nil (fields : List String) : maskEntries fields [] = [] := by
  rw [maskEntries]

theorem maskEntries_keys (fields : List String) (d : PyDict) :
    (maskEntries fields d).map Prod.fst = d.map Prod.fst := by
  induction d with
  | nil => rw [maskEntries_nil]
  | cons hd tl ih =>
    cases hd with
    | mk k v => rw [maskEntries_cons]; simp [ih]

theorem maskEntries_mem (fields : List String) (d : PyDict) (k : String) (v : PyVal)
    (h : (k, v) ∈ d) :
    (k, maskedEntryValue fields k v) ∈ maskEntries fields d := by
  induction d with
  | nil => simp at h
  | cons hd tl ih =>
    cases hd with
    | mk k' v' =>
      rw [maskEntries_cons]
      rcases List.mem_cons.mp h with h | h
      · rw [Prod.mk.injEq] at h
        rcases h with ⟨h1, h2⟩
        subst h1; subst h2
        exact List.mem_cons_self _ _
      · exact List.mem_cons_of_mem _ (ih h)

/-- C9: `mask_sensitive_data` preserves the keys in order; an entry whose key
is not sensitive (case-insensitively not among password, apiKey, api_key,
secret, token, key) keeps its value, except that a nested dict value is
masked recursively with the same rules; an entry with a sensitive key is
replaced: a string longer than 4 characters keeps its first two and last two
characters around asterisks matching the replaced middle's length, and a
string of 4 characters or fewer becomes exactly `"***"`. -/
theorem mask_sensitive_data_spec :
    (∀ d : PyDict, (mask_sensitive_data d).map Prod.fst = d.map Prod.fst) ∧
    (∀ (d : PyDict) (k : String) (v : PyVal), (k, v) ∈ d →
      isSensitiveKey defaultSensitiveFields k = false → (∀ e : PyDict, v ≠ .dict e) →
      (k, v) ∈ mask_sensitive_data d) ∧
    (∀ (d : PyDict) (k : String) (e : PyDict), (k, .dict e) ∈ d →
      isSensitiveKey defaultSensitiveFields k = false →
      (k, .dict (mask_sensitive_data e)) ∈ mask_sensitive_data d) ∧
    (∀ (d : PyDict) (k s : String), (k, .str s) ∈ d →
      isSensitiveKey defaultSensitiveFields k = true → 4 < s.length →
      (k, .str (String.mk (s.toList.take 2) ++ String.mk (List.replicate (s.length - 4) '*') ++
        String.mk (s.toList.drop (s.length - 2)))) ∈ mask_sensitive_data d) ∧
    (∀ (d : PyDict) (k s : String), (k, .str s) ∈ d →
      isSensitiveKey defaultSensitiveFields k = true → s.length ≤ 4 →
      (k, .str "***") ∈ mask_sensitive_data d) := by
  refine ⟨fun d => maskEntries_keys _ d,
          fun d k v h hs hne => ?_, fun d k e h hs => ?_,
          fun d k s h hs hl => ?_, fun d k s h hs hl => ?_⟩
  · have hm := maskEntries_mem defaultSensitiveFields d k v h
    rw [show maskedEntryValue defaultSensitiveFields k v = v from ?_] at hm
    · exact hm
    · unfold maskedEntryValue
      rw [hs]
      cases v with
      | dict e => exact absurd rfl (hne e)
      | none => rfl
      | bool b => rfl
      | int n => rfl
      | float q => rfl
      | str s => rfl
      | list l => rfl
      | datetime y mo dd hh mi ss => rfl
  · have hm := maskEntries_mem defaultSensitiveFields d k (.dict e) h
    unfold maskedEntryValue at hm
    rw [hs] at hm
    simpa [mask_sensitive_data] using hm
  · have hm := maskEntries_mem defaultSensitiveFields d k (.str s) h
    unfold maskedEntryValue at hm
    rw [hs] at hm
    simpa [mask_sensitive_data, maskValue, hl] using hm
  · have hm := maskEntries_mem defaultSensitiveFields d k (.str s) h
    unfold maskedEntryValue at hm
    rw [hs] at hm
    have hl2 : ¬(4 < s.length) := by omega
    simpa [mask_sensitive_data, maskValue, hl2] using hm

/-- Witness for C9 at the documented input: in
`mask_sensitive_data {"password": "secret123"}` the masked value keeps `se`
and `23` around five asterisks. -/
theorem mask_sensitive_data_spec_witness :
    ("password", PyVal.str "se*****23") ∈
      mask_sensitive_data [("password", PyVal.str "secret123")] :=
  mask_sensitive_data_spec.2.2.2.1 [("password", PyVal.str "secret123")] "password"
    "secret123" (by simp) rfl (by decide)

theorem parseOptStr_optStrVal (o : Option String) : parseOptStr (optStrVal o) = .ok o := by
  cases o <;> rfl

/-- C8 (amended): a complete well-typed wire-format Address dict (all sixteen
aliased keys, string fields strings, flag fields booleans, the enum field a
valid `AddressType` value, and the datetime fields `createdAt`/`updatedAt`
null) round-trips exactly: construction succeeds and `dict(by_alias=True)`
reproduces every key and value.  A datetime field given as a wire STRING is
parsed into a datetime object at construction and serialized back as that
object, not as the original string (see the counterexample). -/
theorem address_wire_roundtrip :
    ∀ (idv comp st2 ph em : Option String) (ty nm st1 ci sta pc co : String) (bd bv : Bool),
    ty = "SHIPPING" ∨ ty = "BILLING" →
    addressFromWire
      [("id", optStrVal idv), ("type", .str ty), ("name", .str nm),
       ("company", optStrVal comp), ("street1", .str st1), ("street2", optStrVal st2),
       ("city", .str ci), ("state", .str sta), ("postalCode", .str pc),
       ("country", .str co), ("phone", optStrVal ph), ("email", optStrVal em),
       ("isDefault", .bool bd), ("isValidated", .bool bv),
       ("createdAt", .none), ("updatedAt", .none)] =
      .ok ⟨idv, ty, nm, comp, st1, st2, ci, sta, pc, co, ph, em,
        Option.some bd, Option.some bv, Option.none, Option.none⟩ ∧
    addressDictByAlias ⟨idv, ty, nm, comp, st1, st2, ci, sta, pc, co, ph, em,
        Option.some bd, Option.some bv, Option.none, Option.none⟩ =
      [("id", optStrVal idv), ("type", .str ty), ("name", .str nm),
       ("company", optStrVal comp), ("street1", .str st1), ("street2", optStrVal st2),
       ("city", .str ci), ("state", .str sta), ("postalCode", .str pc),
       ("country", .str co), ("phone", optStrVal ph), ("email", optStrVal em),
       ("isDefault", .bool bd), ("isValidated", .bool bv),
       ("createdAt", .none), ("updatedAt", .none)] := by
  intro idv comp st2 ph em ty nm st1 ci sta pc co bd bv hty
  rcases hty with rfl | rfl <;> cases idv <;> cases comp <;> cases st2 <;> cases ph <;>
    cases em <;> exact ⟨rfl, rfl⟩

/-- Witness for C8 at a concrete wire dict. -/
theorem address_wire_roundtrip_witness :
    addressFromWire
      [("id", optStrVal (Option.some "addr-1")), ("type", .str "SHIPPING"),
       ("name", .str "John Doe"), ("company", optStrVal Option.none),
       ("street1", .str "123 Main St"), ("street2", optStrVal Option.none),
       ("city", .str "San Francisco"), ("state", .str "CA"), ("postalCode", .str "94105"),
       ("country", .str "US"), ("phone", optStrVal (Option.some "415-555-0123")),
       ("email", optStrVal (Option.some "john@example.com")),
       ("isDefault", .bool true), ("isValidated", .bool false),
       ("createdAt", .none), ("updatedAt", .none)] =
      .ok ⟨Option.some "addr-1", "SHIPPING", "John Doe", Option.none, "123 Main St",
        Option.none, "San Francisco", "CA", "94105", "US", Option.some "415-555-0123",
        Option.some "john@example.com", Option.some true, Option.some false,
        Option.none, Option.none⟩ ∧
    addressDictByAlias ⟨Option.some "addr-1", "SHIPPING", "John Doe", Option.none,
        "123 Main St", Option.none, "San Francisco", "CA", "94105", "US",
        Option.some "415-555-0123", Option.some "john@example.com", Option.some true,
        Option.some false, Option.none, Option.none⟩ =
      [("id", optStrVal (Option.some "addr-1")), ("type", .str "SHIPPING"),
       ("name", .str "John Doe"), ("company", optStrVal Option.none),
       ("street1", .str "123 Main St"), ("street2", optStrVal Option.none),
       ("city", .str "San Francisco"), ("state", .str "CA"), ("postalCode", .str "94105"),
       ("country", .str "US"), ("phone", optStrVal (Option.some "415-555-0123")),
       ("email", optStrVal (Option.some "john@example.com")),
       ("isDefault", .bool true), ("isValidated", .bool false),
       ("createdAt", .none), ("updatedAt", .none)] :=
  address_wire_roundtrip (Option.some "addr-1") Option.none Option.none
    (Option.some "415-555-0123") (Option.some "john@example.com") "SHIPPING" "John Doe"
    "123 Main St" "San Francisco" "CA" "94105" "US" true false (Or.inl rfl)

/-- Counterexample to C8 as stated: a wire-format Address dict whose
`createdAt` holds the wire string `"2024-01-15T10:30:00"` constructs
successfully, but re-serializing with aliasing enabled returns a datetime
OBJECT under `createdAt`, not the original string, so the original key
values are not reproduced exactly. -/
theorem address_wire_roundtrip_counterexample :
    addressFromWire
      [("id", .none), ("type", .str "SHIPPING"), ("name", .str "John Doe"),
       ("company", .none), ("street1", .str "123 Main St"), ("street2", .none),
       ("city", .str "San Francisco"), ("state", .str "CA"), ("postalCode", .str "94105"),
       ("country", .str "US"), ("phone", .none), ("email", .none),
       ("isDefault", .bool true), ("isValidated", .bool false),
       ("createdAt", .str "2024-01-15T10:30:00"), ("updatedAt", .none)] =
      .ok ⟨Option.none, "SHIPPING", "John Doe", Option.none, "123 Main St", Option.none,
        "San Francisco", "CA", "94105", "US", Option.none, Option.none,
        Option.some true, Option.some false, Option.some ⟨2024, 1, 15, 10, 30, 0⟩,
        Option.none⟩ ∧
    addressDictByAlias ⟨Option.none, "SHIPPING", "John Doe", Option.none, "123 Main St",
        Option.none, "San Francisco", "CA", "94105", "US", Option.none, Option.none,
        Option.some true, Option.some false, Option.some ⟨2024, 1, 15, 10, 30, 0⟩,
        Option.none⟩ ≠
      [("id", .none), ("type", .str "SHIPPING"), ("name", .str "John Doe"),
       ("company", .none), ("street1", .str "123 Main St"), ("street2", .none),
       ("city", .str "San Francisco"), ("state", .str "CA"), ("postalCode", .str "94105"),
       ("country", .str "US"), ("phone", .none), ("email", .none),
       ("isDefault", .bool true), ("isValidated", .bool false),
       ("createdAt", .str "2024-01-15T10:30:00"), ("updatedAt", .none)] := by
  refine ⟨rfl, fun h => ?_⟩
  have h2 := congrArg (fun l => dlookup l "createdAt") h
  simp [addressDictByAlias, dlookup, optDtVal] at h2

theorem except_pure_eq {α : Type} (x : α) : (pure x : Except PyExc α) = .ok x := rfl

theorem except_bind_ok {α β : Type} (a : α) (f : α → Except PyExc β) :
    (Except.ok a : Except PyExc α) >>= f = f a := rfl

/-- The valid order payload of the repository's own tests. -/
def validOrderExample : PyDict :=
  [("orderNumber", .str "ORDER-001"),
   ("recipientName", .str "John Doe"),
   ("recipientStreet1", .str "123 Main St"),
   ("recipientCity", .str "San Francisco"),
   ("recipientState", .str "CA"),
   ("recipientPostalCode", .str "94105"),
   ("recipientCountry", .str "US"),
   ("recipientEmail", .str "john@example.com"),
   ("recipientPhone", .str "415-555-0123"),
   ("items", .list [.dict
     [("name", .str "Product 1"), ("sku", .str "SKU-1"), ("quantity", .int 1),
      ("unitPrice", .float 10), ("weight", .float 1), ("weightUnit", .str "lb")]])]

/-- Whether the recipientEmail value, when present and truthy, is a string. -/
def emailTypeSane (d : PyDict) : Bool :=
  match dlookup d "recipientEmail" with
  | Option.some v => !(truthy v) || (match v with | .str _ => true | _ => false)
  | Option.none => true

/-- Whether the recipientPhone value, when present and truthy, is a string. -/
def phoneTypeSane (d : PyDict) : Bool :=
  match dlookup d "recipientPhone" with
  | Option.some v => !(truthy v) || (match v with | .str _ => true | _ => false)
  | Option.none => true

/-- Whether the postal code and country, when both keys are present, are
strings. -/
def postalTypeSane (d : PyDict) : Bool :=
  match dlookup d "recipientPostalCode", dlookup d "recipientCountry" with
  | Option.some pc, Option.some cty =>
    (match pc with | .str _ => true | _ => false) &&
      (match cty with | .str _ => true | _ => false)
  | _, _ => true

/-- Whether every element of a present items list is a dict. -/
def itemsTypeSane (d : PyDict) : Bool :=
  match dlookup d "items" with
  | Option.some (.list its) =>
    its.all (fun it => match it with | .dict _ => true | _ => false)
  | _ => true

/-- C10's amended type-sanity condition: recipientEmail and recipientPhone,
when present and truthy, are strings; recipientPostalCode and
recipientCountry, when both keys are present, are strings; and when items is
a list, each element is a dict. -/
def typeSaneOrder (d : PyDict) : Bool :=
  emailTypeSane d && phoneTypeSane d && postalTypeSane d && itemsTypeSane d

theorem itemReqStep_dict_isOk (m : PyDict) (pre : String) (acc : List String) (f : String) :
    ∃ l, itemReqStep (.dict m) pre acc f = .ok l := by
  cases hv : dlookup m f with
  | none => exact ⟨acc ++ [pre ++ ": '" ++ f ++ "' is required"],
      by simp [itemReqStep, pyContains, hv, except_pure_eq, except_bind_ok]⟩
  | some v =>
    cases hn : pyIsNone v with
    | true => exact ⟨acc ++ [pre ++ ": '" ++ f ++ "' is required"],
        by simp [itemReqStep, pyContains, pyGetItem, hv, hn, except_pure_eq, except_bind_ok]⟩
    | false => exact ⟨acc,
        by simp [itemReqStep, pyContains, pyGetItem, hv, hn, except_pure_eq, except_bind_ok]⟩

theorem foldlM_itemReqStep_isOk (m : PyDict) (pre : String) (fields : List String) :
    ∀ init : List String, ∃ l, fields.foldlM (itemReqStep (.dict m) pre) init = .ok l := by
  induction fields with
  | nil => intro init; exact ⟨init, rfl⟩
  | cons f tl ih =>
    intro init
    obtain ⟨l1, h1⟩ := itemReqStep_dict_isOk m pre init f
    obtain ⟨l2, h2⟩ := ih l1
    exact ⟨l2, by simp [List.foldlM, h1, h2, except_bind_ok]⟩

/-- The membership test of the weight-unit block, as a function of the
looked-up value. -/
def weightUnitValOk (v : PyVal) : Bool :=
  match v with
  | .str s => ["lb", "kg", "oz", "g"].any (fun u => s == u)
  | _ => false

theorem weightUnitCond_eq (v : PyVal) :
    (["lb", "kg", "oz", "g"].any (fun u => match v with | .str s => s == u | _ => false)) =
      weightUnitValOk v := by
  cases v <;> rfl

theorem itemNumCheck_dict_absent (m : PyDict) (field : String) (isType : PyVal → Bool)
    (msg : String) (hv : dlookup m field = Option.none) :
    itemNumCheck (.dict m) field isType msg = .ok [] := by
  simp [itemNumCheck, pyContains, hv, except_pure_eq, except_bind_ok]

theorem itemNumCheck_dict_present (m : PyDict) (field : String) (isType : PyVal → Bool)
    (msg : String) (v : PyVal) (hv : dlookup m field = Option.some v) (b : Bool)
    (hc : (!(isType v) || pyLeZero v) = b) :
    itemNumCheck (.dict m) field isType msg = .ok (if b then [msg] else []) := by
  unfold itemNumCheck
  rw [show pyContains (.dict m) field = .ok true by simp [pyContains, hv]]
  rw [except_bind_ok, if_pos rfl]
  rw [show pyGetItem (.dict m) field = .ok v by simp [pyGetItem, hv]]
  rw [except_bind_ok, hc]
  cases b <;> rfl

theorem itemNumCheck_dict_isOk (m : PyDict) (field : String) (isType : PyVal → Bool)
    (msg : String) : ∃ l, itemNumCheck (.dict m) field isType msg = .ok l := by
  cases hv : dlookup m field with
  | none => exact ⟨[], itemNumCheck_dict_absent m field isType msg hv⟩
  | some v =>
    exact ⟨_, itemNumCheck_dict_present m field isType msg v hv _ rfl⟩

theorem weightUnitCheck_dict_absent (m : PyDict) (pre : String)
    (hv : dlookup m "weightUnit" = Option.none) :
    weightUnitCheck (.dict m) pre = .ok [] := by
  simp [weightUnitCheck, pyContains, hv, except_pure_eq, except_bind_ok]

theorem weightUnitCheck_dict_present (m : PyDict) (pre : String) (v : PyVal)
    (hv : dlookup m "weightUnit" = Option.some v) (b : Bool) (hc : weightUnitValOk v = b) :
    weightUnitCheck (.dict m) pre =
      .ok (if b then []
           else [pre ++ ": weightUnit must be one of ['lb', 'kg', 'oz', 'g']"]) := by
  unfold weightUnitCheck
  rw [show pyContains (.dict m) "weightUnit" = .ok true by simp [pyContains, hv]]
  rw [except_bind_ok, if_pos rfl]
  rw [show pyGetItem (.dict m) "weightUnit" = .ok v by simp [pyGetItem, hv]]
  rw [except_bind_ok, weightUnitCond_eq, hc]
  cases b <;> rfl

theorem weightUnitCheck_dict_isOk (m : PyDict) (pre : String) :
    ∃ l, weightUnitCheck (.dict m) pre = .ok l := by
  cases hv : dlookup m "weightUnit" with
  | none => exact ⟨[], weightUnitCheck_dict_absent m pre hv⟩
  | some v => exact ⟨_, weightUnitCheck_dict_present m pre v hv _ rfl⟩

theorem validate_order_item_dict_isOk (m : PyDict) (i : Nat) :
    ∃ l, validate_order_item (.dict m) i = .ok l := by
  obtain ⟨l1, h1⟩ := foldlM_itemReqStep_isOk m ("Item " ++ toString (i + 1)) itemRequiredFields []
  obtain ⟨l2, h2⟩ := itemNumCheck_dict_isOk m "quantity" pyIsInt
    ("Item " ++ toString (i + 1) ++ ": quantity must be a positive integer")
  obtain ⟨l3, h3⟩ := itemNumCheck_dict_isOk m "unitPrice" pyIsNum
    ("Item " ++ toString (i + 1) ++ ": unitPrice must be a positive number")
  obtain ⟨l4, h4⟩ := itemNumCheck_dict_isOk m "weight" pyIsNum
    ("Item " ++ toString (i + 1) ++ ": weight must be a positive number")
  obtain ⟨l5, h5⟩ := weightUnitCheck_dict_isOk m ("Item " ++ toString (i + 1))
  exact ⟨l1 ++ l2 ++ l3 ++ l4 ++ l5,
    by simp [validate_order_item, h1, h2, h3, h4, h5, except_bind_ok, except_pure_eq]⟩

theorem validateItems_dict_isOk (its : List PyVal)
    (h : ∀ it ∈ its, ∃ m : PyDict, it = .dict m) :
    ∀ i : Nat, ∃ l, validateItems its i = .ok l := by
  induction its with
  | nil => intro i; exact ⟨[], rfl⟩
  | cons it tl ih =>
    intro i
    obtain ⟨m, rfl⟩ := h it (List.mem_cons_self _ _)
    obtain ⟨l1, h1⟩ := validate_order_item_dict_isOk m i
    obtain ⟨l2, h2⟩ := ih (fun x hx => h x (List.mem_cons_of_mem _ hx)) (i + 1)
    exact ⟨l1 ++ l2, by simp [validateItems, h1, h2, except_bind_ok, except_pure_eq]⟩

theorem emailSegment_sane_isOk (d : PyDict) (h : emailTypeSane d = true) :
    ∃ l, emailSegment d = .ok l := by
  unfold emailTypeSane at h
  unfold emailSegment
  cases hv : dlookup d "recipientEmail" with
  | none => exact ⟨[], rfl⟩
  | some v =>
    rw [hv] at h
    simp only at h
    cases htr : truthy v
    · exact ⟨[], by simp [htr, except_pure_eq]⟩
    · rw [htr] at h
      simp only [Bool.not_true, Bool.false_or] at h
      cases v with
      | str s =>
        cases he : emailMatch s
        · exact ⟨["Invalid recipient email format"],
            by simp [htr, validate_email, he, except_pure_eq, except_bind_ok]⟩
        · exact ⟨[], by simp [htr, validate_email, he, except_pure_eq, except_bind_ok]⟩
      | none => simp at h
      | bool b => simp at h
      | int n => simp at h
      | float q => simp at h
      | list l => simp at h
      | dict e => simp at h
      | datetime y mo dd hh mi ss => simp at h

theorem phoneSegment_sane_isOk (d : PyDict) (h : phoneTypeSane d = true) :
    ∃ l, phoneSegment d = .ok l := by
  unfold phoneTypeSane at h
  unfold phoneSegment
  cases hv : dlookup d "recipientPhone" with
  | none => exact ⟨[], rfl⟩
  | some v =>
    rw [hv] at h
    simp only at h
    cases htr : truthy v
    · exact ⟨[], by simp [htr, except_pure_eq]⟩
    · rw [htr] at h
      simp only [Bool.not_true, Bool.false_or] at h
      cases v with
      | str s =>
        cases he : phoneMatch s
        · exact ⟨["Invalid recipient phone format"],
            by simp [htr, validate_phone, he, except_pure_eq, except_bind_ok]⟩
        · exact ⟨[], by simp [htr, validate_phone, he, except_pure_eq, except_bind_ok]⟩
      | none => simp at h
      | bool b => simp at h
      | int n => simp at h
      | float q => simp at h
      | list l => simp at h
      | dict e => simp at h
      | datetime y mo dd hh mi ss => simp at h

theorem postalSegment_sane_isOk (d : PyDict) (h : postalTypeSane d = true) :
    ∃ l, postalSegment d = .ok l := by
  unfold postalTypeSane at h
  unfold postalSegment
  cases hpc : dlookup d "recipientPostalCode" with
  | none =>
    cases hcty : dlookup d "recipientCountry" with
    | none => exact ⟨[], rfl⟩
    | some cty => exact ⟨[], rfl⟩
  | some pc =>
    cases hcty : dlookup d "recipientCountry" with
    | none => exact ⟨[], rfl⟩
    | some cty =>
      rw [hpc, hcty] at h
      simp only [Bool.and_eq_true] at h
      obtain ⟨h1, h2⟩ := h
      cases pc with
      | str ps =>
        cases cty with
        | str cs =>
          cases hm : postalMatch ps cs
          · exact ⟨["Invalid postal code format"],
              by simp [validate_postal_code, hm, except_pure_eq, except_bind_ok]⟩
          · exact ⟨[], by simp [validate_postal_code, hm, except_pure_eq, except_bind_ok]⟩
        | none => simp at h2
        | bool b => simp at h2
        | int n => simp at h2
        | float q => simp at h2
        | list l => simp at h2
        | dict e => simp at h2
        | datetime y mo dd hh mi ss => simp at h2
      | none => simp at h1
      | bool b => simp at h1
      | int n => simp at h1
      | float q => simp at h1
      | list l => simp at h1
      | dict e => simp at h1
      | datetime y mo dd hh mi ss => simp at h1

theorem itemsSegment_sane_isOk (d : PyDict) (h : itemsTypeSane d = true) :
    ∃ l, itemsSegment d = .ok l := by
  unfold itemsTypeSane at h
  unfold itemsSegment
  cases hv : dlookup d "items" with
  | none => exact ⟨[], rfl⟩
  | some v =>
    rw [hv] at h
    cases v with
    | list its =>
      by_cases hemp : its.isEmpty = true
      · exact ⟨["At least one item is required"], by simp [hemp, except_pure_eq]⟩
      · simp only [Bool.not_eq_true] at hemp
        have hall : ∀ it ∈ its, ∃ m : PyDict, it = .dict m := by
          simp only at h
          rw [List.all_eq_true] at h
          intro it hit
          have := h it hit
          cases it with
          | dict m => exact ⟨m, rfl⟩
          | none => simp at this
          | bool b => simp at this
          | int n => simp at this
          | float q => simp at this
          | str s => simp at this
          | list l => simp at this
          | datetime y mo dd hh mi ss => simp at this
        obtain ⟨l, hl⟩ := validateItems_dict_isOk its hall 0
        exact ⟨l, by simp [hemp, hl]⟩
    | none => exact ⟨["At least one item is required"], rfl⟩
    | bool b => exact ⟨["At least one item is required"], rfl⟩
    | int n => exact ⟨["At least one item is required"], rfl⟩
    | float q => exact ⟨["At least one item is required"], rfl⟩
    | str s => exact ⟨["At least one item is required"], rfl⟩
    | dict e => exact ⟨["At least one item is required"], rfl⟩
    | datetime y mo dd hh mi ss => exact ⟨["At least one item is required"], rfl⟩

/-- C10 (amended): `validate_order_data` returns an error list without
raising for every payload that is type-sane (recipientEmail/recipientPhone
strings when present and truthy, recipientPostalCode and recipientCountry
strings when both keys are present, and every element of a present items
list a dict).  On other payloads the source CAN raise — see the
counterexample. -/
theorem validate_order_data_type_sane_no_raise :
    ∀ d : PyDict, typeSaneOrder d = true → ∃ errs, validate_order_data d = .ok errs := by
  intro d h
  unfold typeSaneOrder at h
  simp only [Bool.and_eq_true] at h
  obtain ⟨⟨⟨hem, hph⟩, hpo⟩, hit⟩ := h
  obtain ⟨em, hem2⟩ := emailSegment_sane_isOk d hem
  obtain ⟨ph, hph2⟩ := phoneSegment_sane_isOk d hph
  obtain ⟨po, hpo2⟩ := postalSegment_sane_isOk d hpo
  obtain ⟨it, hit2⟩ := itemsSegment_sane_isOk d hit
  exact ⟨requiredSegment d ++ em ++ ph ++ po ++ it,
    by simp [validate_order_data, hem2, hph2, hpo2, hit2, except_bind_ok, except_pure_eq]⟩

/-- Witness for C10 (amended) at the tests' valid payload. -/
theorem validate_order_data_type_sane_no_raise_witness :
    typeSaneOrder validOrderExample = true ∧
    ∃ errs, validate_order_data validOrderExample = .ok errs :=
  ⟨rfl, validate_order_data_type_sane_no_raise validOrderExample rfl⟩

/-- Counterexample to C10 as stated: on the payload
`{"recipientEmail": 5}` the source does not return an error list — the email
check calls `re.match` on the integer and a TypeError propagates to the
caller. -/
theorem validate_order_data_raises_counterexample :
    validate_order_data [("recipientEmail", PyVal.int 5)] = .error PyExc.typeError := rfl
